import Mathlib

/-!
Shallow embedding of `app.py` from the streamlit-serpapi-search repository.

The source is a single Streamlit script.  The core functions
(`truncate_summary`, `build_search_query`, `search_serpapi`,
`save_selected_results`) and the relevant fragments of `main` are embedded
below as pure Lean functions:

* Python `str.split()` (split on whitespace runs, dropping empties) is
  modelled by `pyWords` over `List Char`; `' '.join` by `joinWith ' '`.
* The effectful HTTP call in `search_serpapi` is split into the request
  parameters it issues (`serpapi_params`) and the processing of the
  provider's behaviour (`search_serpapi_result`), where the behaviour is a
  `Transport` value: either a transport failure (network error or non-2xx
  status, both of which surface as `requests.exceptions.RequestException`)
  or a successfully parsed JSON document.
* Python exceptions escaping or being caught are made explicit: the body of
  the `try` block is modelled in `Except PyExc`, and the surrounding
  `except` clauses translate caught exceptions into an error report plus an
  empty result list, exactly as the source does.
* `save_selected_results` writes a file; it is modelled as a pure function
  returning the pair (filename, file content), with the timestamp passed in
  as a parameter (the source reads the current wall clock).
-/

set_option linter.unusedVariables false

namespace SerpSearch

/-- Model of Python `text.split()` (no separator argument): split on runs of
whitespace, returning the non-empty maximal words, in order.  A
non-whitespace head either starts a fresh word (when the rest starts with
whitespace or is empty) or extends the first word of the rest's split. -/
def pyWords : List Char → List (List Char)
  | [] => []
  | c :: cs =>
    if c.isWhitespace then pyWords cs
    else
      match cs with
      | [] => [[c]]
      | d :: _ =>
        if d.isWhitespace then [c] :: pyWords cs
        else
          match pyWords cs with
          | [] => [[c]]
          | w :: ws => (c :: w) :: ws

/-- Model of Python `sep.join(pieces)` for a one-character separator,
over character lists. -/
def joinWith (sep : Char) : List (List Char) → List Char
  | [] => []
  | [w] => w
  | w :: ws => w ++ sep :: joinWith sep ws

/-- The ellipsis marker `'...'` appended by `truncate_summary`. -/
def ellipsis : List Char := ['.', '.', '.']

/-- `app.py` lines 30-37: `truncate_summary(text, max_words=50)`.
`words = text.split()`; if `len(words) <= max_words` return `text`
unchanged, else return `' '.join(words[:max_words]) + '...'`. -/
def truncate_summary (text : String) (max_words : Nat := 50) : String :=
  let words := pyWords text.toList
  if words.length ≤ max_words then text
  else String.mk (joinWith ' ' (words.take max_words) ++ ellipsis)

/-- `app.py` lines 15-21: the fixed region catalog, in dict insertion
(= iteration) order. -/
def REGIONS : List (String × String) :=
  [("Poland", "pl"), ("Czech Republic", "cz"), ("Romania", "ro"),
   ("France", "fr"), ("Saudi Arabia", "sa")]

/-- `app.py` lines 23-28: the fixed topic catalog, in dict insertion order. -/
def TARGETS : List (String × String) :=
  [("luxury travel market", "luxury travel market trends analysis"),
   ("outbound luxury travel", "outbound luxury travel market trends analysis"),
   ("airline news", "airline industry news updates"),
   ("exclusive travel", "exclusive VIP travel experiences premium")]

/-- First-match association-list lookup (Python dict indexing on the two
catalogs, whose keys are distinct). -/
def lookupStr : List (String × String) → String → Option String
  | [], _ => none
  | (k, v) :: kvs, key => if k = key then some v else lookupStr kvs key

/-- `app.py` lines 87-98: the `query_parts` list built by
`build_search_query` just before the final `" ".join`.  Topic keys index
`TARGETS` (selections come from the catalog checkboxes, so the lookup
always succeeds in the app; a missing key, which would raise `KeyError` in
Python, contributes `""` here).  Note the source appends `additional_terms`
whenever the string is non-empty (`if additional_terms:`), with no
trimming. -/
def query_parts_of (selected_regions selected_targets : List String)
    (additional_terms : String) : List String :=
  let target_parts := selected_targets.map (fun t => (lookupStr TARGETS t).getD "")
  let region_terms := selected_regions.map (fun r => "in " ++ r)
  let parts :=
    if region_terms = [] then target_parts
    else target_parts ++ [String.intercalate " OR " region_terms]
  if additional_terms = "" then parts else parts ++ [additional_terms]

/-- `app.py` lines 83-99: `build_search_query(selected_regions,
selected_targets, additional_terms="")`, returning
`" ".join(query_parts)`. -/
def build_search_query (selected_regions selected_targets : List String)
    (additional_terms : String := "") : String :=
  String.intercalate " " (query_parts_of selected_regions selected_targets additional_terms)

/-- `app.py` lines 148-152: `main` builds `selected_regions` by iterating
the `REGIONS` catalog in order and appending each region whose checkbox is
ticked.  `chosen` is the checkbox state. -/
def ui_selected_regions (chosen : String → Bool) : List String :=
  (REGIONS.map Prod.fst).filter chosen

/-- Checkbox state selecting France and Poland (written France-first). -/
def pickFP (r : String) : Bool := (r == "France") || (r == "Poland")

/-- Checkbox state selecting Poland and France (written Poland-first). -/
def pickPF (r : String) : Bool := (r == "Poland") || (r == "France")

/-- A parsed JSON value, the shape of `response.json()`. -/
inductive Json where
  | null
  | bool (b : Bool)
  | num (n : Int)
  | str (s : String)
  | arr (xs : List Json)
  | obj (kvs : List (String × Json))

/-- The Python exceptions relevant to `search_serpapi`:
`requests.exceptions.RequestException` (network errors, and the `HTTPError`
raised by `raise_for_status` on a non-2xx status), `KeyError`, and the
`TypeError`/`AttributeError` raised when a value has the wrong shape. -/
inductive PyExc where
  | requestException
  | keyError
  | typeError
  | attributeError
deriving DecidableEq, Repr

/-- One row of the result table (`app.py` lines 67-72).  Python stores the
values of the provider's `title`/`link` fields as-is, whatever their JSON
shape, so the fields are kept as `Json` here; the placeholders and every
value the app flow produces are strings. -/
structure ResultRecord where
  selected : Bool
  title : Json
  summary : Json
  url : Json

/-- What `search_serpapi` does from its caller's point of view: either it
returns a list of records (having reported a user-visible `st.error` iff
`errorReported`), or an exception escapes it. -/
inductive SearchOutput where
  | returns (errorReported : Bool) (records : List ResultRecord)
  | raises (e : PyExc)

/-- The provider's behaviour for one request: a transport failure
(network error or non-2xx status, both raising a
`requests.exceptions.RequestException`), or a successfully parsed JSON
response body. -/
inductive Transport where
  | failure (msg : String)
  | success (data : Json)

/-- First-match lookup in a JSON object's key/value list (Python dict
lookup; parsed JSON objects have distinct keys). -/
def lookupKvs : List (String × Json) → String → Option Json
  | [], _ => none
  | (k, v) :: kvs, key => if k = key then some v else lookupKvs kvs key

/-- Python `j.get(key, default)`: on a dict, the value under `key` or the
default; on any non-dict value, `.get` does not exist and an
`AttributeError` is raised. -/
def pyGet (j : Json) (key : String) (default : Json) : Except PyExc Json :=
  match j with
  | .obj kvs => .ok ((lookupKvs kvs key).getD default)
  | _ => .error .attributeError

/-- The string content of a JSON value, as used by `truncate_summary`'s
`text.split()`: a non-string has no `.split` method, so an
`AttributeError` is raised. -/
def asStr : Json → Except PyExc String
  | .str s => .ok s
  | _ => .error .attributeError

/-- `app.py` line 65, inner call: `result.get("snippet", "No summary
available")`, then the use of that value as a string by
`truncate_summary`. -/
def snippet_of (hit : Json) : Except PyExc String := do
  let j ← pyGet hit "snippet" (Json.str "No summary available")
  asStr j

/-- `app.py` lines 64-72, one iteration of the processing loop: build the
record appended to `processed_results` for one organic hit. -/
def processHit (hit : Json) : Except PyExc ResultRecord := do
  let s ← snippet_of hit
  let title ← pyGet hit "title" (Json.str "No title")
  let url ← pyGet hit "link" (Json.str "No URL available")
  .ok { selected := false, title := title, summary := Json.str (truncate_summary s), url := url }

/-- `app.py` lines 63-72: the whole `for result in ...` loop, accumulating
`processed_results` in order; the first exception aborts the loop. -/
def processLoop : List Json → Except PyExc (List ResultRecord)
  | [] => .ok []
  | h :: hs => do
    let r ← processHit h
    let rs ← processLoop hs
    .ok (r :: rs)

/-- Python `results[:num_results]` followed by iteration: slicing works on
lists (yielding the first `n` elements) and on strings (iteration then
yields one-character strings); any other value raises `TypeError` at the
slice. -/
def sliceResults (j : Json) (n : Nat) : Except PyExc (List Json) :=
  match j with
  | .arr xs => .ok (xs.take n)
  | .str s => .ok ((s.toList.take n).map (fun c => Json.str (String.mk [c])))
  | _ => .error .typeError

/-- `app.py` lines 43-54: the query parameters of the single GET request
`search_serpapi` issues: `q`, `api_key`, `engine=google`, `num`, and — when
a region code is given — `gl` and `hl=en`. -/
def serpapi_params (query api_key : String) (num_results : Nat)
    (region : Option String) : List (String × String) :=
  [("q", query), ("api_key", api_key), ("engine", "google"),
   ("num", toString num_results)] ++
  (match region with
   | none => []
   | some g => [("gl", g), ("hl", "en")])

/-- `app.py` lines 56-81: the `try`/`except` body of `search_serpapi`,
given the provider's behaviour.  A transport failure is caught by
`except requests.exceptions.RequestException` (`st.error`, return `[]`); a
`KeyError` from the body is caught likewise; any other exception from the
body (e.g. `TypeError`/`AttributeError` on a malformed response shape)
escapes to the caller. -/
def search_serpapi_result (t : Transport) (num_results : Nat) : SearchOutput :=
  match t with
  | .failure _ => .returns true []
  | .success data =>
    match (do
        let results ← pyGet data "organic_results" (Json.arr [])
        let hits ← sliceResults results num_results
        processLoop hits : Except PyExc (List ResultRecord)) with
    | .ok recs => .returns false recs
    | .error .keyError => .returns true []
    | .error e => .raises e

/-- `app.py` line 217: `REGIONS[selected_regions[0]] if selected_regions
else None` — only the first selected region's catalog code is used. -/
def region_code_of : List String → Option String
  | [] => none
  | r :: _ => lookupStr REGIONS r

/-- `app.py` lines 216-218, the request issued by the Search button:
parameters built from the query, the key, the result count and the first
selected region's code. -/
def session_request (query api_key : String) (selected_regions : List String)
    (num_results : Nat) : List (String × String) :=
  serpapi_params query api_key num_results (region_code_of selected_regions)

/-- `app.py` lines 216-221: the result set the Search button stores in
session state.  `summary_length` (the "Summary length (characters)" slider,
lines 190-196) is in scope in `main` but is not passed to `search_serpapi`;
it is only used in the display column configuration (line 261). -/
def session_search (t : Transport) (query api_key : String)
    (selected_regions : List String) (num_results summary_length : Nat) : SearchOutput :=
  search_serpapi_result t num_results

/-- `app.py` line 261: the only use of the "Summary length (characters)"
slider — the `max_chars` display option of the summary column. -/
def display_max_chars (summary_length : Nat) : Nat := summary_length

/-- Python `str.isalnum() or x in (' ', '-', '_')`, the character filter of
`app.py` line 113 (the app's queries are ASCII, where `isalnum` is
letter-or-digit). -/
def keepForFilename (c : Char) : Bool := c.isAlphanum || c = ' ' || c = '-' || c = '_'

/-- Python `str.strip()` with no argument: remove leading and trailing
whitespace. -/
def pyStrip (l : List Char) : List Char :=
  ((l.dropWhile Char.isWhitespace).reverse.dropWhile Char.isWhitespace).reverse

/-- Does `l` start with `old`? (Python substring match at the head.) -/
def startsWith : List Char → List Char → Bool
  | [], _ => true
  | p :: ps, l =>
    match l with
    | [] => false
    | x :: xs => x = p && startsWith ps xs

/-- Fuel-driven worker for `removeSub`: each step consumes at least one
character, so fuel `l.length` always suffices. -/
def removeSubFuel (old : List Char) : Nat → List Char → List Char
  | _, [] => []
  | 0, l => l
  | fuel + 1, c :: cs =>
    if startsWith old (c :: cs) && !old.isEmpty then
      removeSubFuel old fuel (List.drop (old.length - 1) cs)
    else c :: removeSubFuel old fuel cs

/-- Python `s.replace(old, '')` for non-empty `old`: delete the leftmost
occurrence and continue after it (non-overlapping, left to right). -/
def removeSub (old l : List Char) : List Char :=
  removeSubFuel old l.length l

/-- Python `s.split(sep)` for a one-character separator: split at every
occurrence, keeping empty pieces (so `"".split('_') == [""]`). -/
def splitChar (sep : Char) : List Char → List (List Char)
  | [] => [[]]
  | c :: cs =>
    if c = sep then [] :: splitChar sep cs
    else
      match splitChar sep cs with
      | [] => [[c]]
      | w :: ws => (c :: w) :: ws

/-- `app.py` lines 112-122: the `clean_query` value used in the export
filename.  Keep the filename-friendly characters of the query's first 30
characters, strip, turn spaces into underscores, delete the substrings
`market`, `trends`, `analysis`, `in` in that order, then collapse
underscore runs (`'_'.join(filter(None, clean_query.split('_')))`). -/
def clean_query_of (search_query : String) : List Char :=
  let cq := pyStrip ((search_query.toList.take 30).filter keepForFilename)
  let cq := cq.map (fun c => if c = ' ' then '_' else c)
  let cq := removeSub "market".toList cq
  let cq := removeSub "trends".toList cq
  let cq := removeSub "analysis".toList cq
  let cq := removeSub "in".toList cq
  joinWith '_' ((splitChar '_' cq).filter (· ≠ []))

/-- `app.py` lines 109-110: `"_".join(selected_regions)` (or `"global"`),
lower-cased, spaces turned into underscores. -/
def region_str_of (selected_regions : List String) : List Char :=
  let s := if selected_regions = [] then "global".toList
           else joinWith '_' (selected_regions.map String.toList)
  (s.map Char.toLower).map (fun c => if c = ' ' then '_' else c)

/-- `app.py` line 124: `f"{region_str}_{clean_query}_{timestamp}.csv"`. -/
def export_filename (selected_regions : List String)
    (search_query timestamp : String) : String :=
  String.mk (region_str_of selected_regions ++ '_' :: clean_query_of search_query
    ++ '_' :: timestamp.toList ++ ".csv".toList)

/-- A CSV cell needs quoting when it embeds a delimiter, quote or line
break (pandas `to_csv` minimal quoting). -/
def needsQuote (s : String) : Bool :=
  s.toList.any (fun c => c = ',' || c = '"' || c = '\n' || c = '\r')

/-- One CSV cell, quoted with doubled quotes when necessary. -/
def csvCell (s : String) : String :=
  if needsQuote s then
    "\"" ++ String.mk ((s.toList.map (fun c => if c = '"' then ['"', '"'] else [c])).flatten) ++ "\""
  else s

/-- The cell text pandas writes for a stored value.  The app flow only ever
stores strings (provider fields or the literal placeholders); scalar
non-strings are rendered for completeness, non-scalars do not occur. -/
def jsonCellStr : Json → String
  | .str s => s
  | .num n => toString n
  | .bool b => if b then "True" else "False"
  | .null => ""
  | .arr _ => ""
  | .obj _ => ""

/-- One CSV line with trailing newline. -/
def csvLine (cells : List String) : String :=
  String.intercalate "," (cells.map csvCell) ++ "\n"

/-- `app.py` line 137: `selected_df.to_csv(..., index=False)` — a header
row `title,summary,url` followed by one line per record. -/
def results_csv (rows : List ResultRecord) : String :=
  csvLine ["title", "summary", "url"] ++
  String.join (rows.map (fun r => csvLine [jsonCellStr r.title, jsonCellStr r.summary, jsonCellStr r.url]))

/-- `app.py` lines 101-139: `save_selected_results(df, search_query,
selected_regions)`, as the pair (filename, written file content).  The
timestamp (`datetime.now().strftime("%Y%m%d_%H%M%S")`, line 106) is a
parameter here.  Note the function itself performs no emptiness check on
the selection: it filters `df[df['selected']]`, writes the metadata header
and the (possibly empty) CSV body, and returns the filename
unconditionally. -/
def save_selected_results (df : List ResultRecord) (search_query : String)
    (selected_regions : List String) (timestamp : String) : String × String :=
  let filename := export_filename selected_regions search_query timestamp
  let selected_df := df.filter (·.selected)
  let header :=
    "# Search Query: " ++ search_query ++ "\n" ++
    "# Regions: " ++ String.intercalate ", " selected_regions ++ "\n" ++
    "# Timestamp: " ++ timestamp ++ "\n" ++
    "#" ++ String.mk (List.replicate 50 '=') ++ "\n"
  (filename, header ++ results_csv selected_df)

/-- `app.py` lines 273-287: the "Save Selected Results" button handler.
The caller — not the exporter — checks `edited_df['selected'].any()`; with
no row selected it shows a warning and never calls
`save_selected_results`, so nothing is written (`none`). -/
def main_save (edited_df : List ResultRecord) (search_query : String)
    (selected_regions : List String) (timestamp : String) : Option (String × String) :=
  if edited_df.any (·.selected) then
    some (save_selected_results edited_df search_query selected_regions timestamp)
  else none

/-- The search-then-export pipeline of `main`: the records stored by the
Search button (`session_search`) fed to the Save button handler.  Exists to
state that the export content never depends on the summary-length display
slider. -/
def session_then_export (t : Transport) (query api_key : String)
    (selected_regions : List String) (num_results summary_length : Nat)
    (timestamp : String) : Option (String × String) :=
  match session_search t query api_key selected_regions num_results summary_length with
  | .returns _ recs => main_save recs query selected_regions timestamp
  | .raises _ => none

/-- A 60-word text (sixty copies of the word `w`). -/
def w60 : String := String.mk (joinWith ' ' (List.replicate 60 ['w']))

/-- The query string of the spec's export example. -/
def luxQuery : String := "luxury travel market trends analysis in Poland"

/-- A one-row result set whose single row is not selected. -/
def df0 : List ResultRecord :=
  [{ selected := false, title := Json.str "t", summary := Json.str "s", url := Json.str "u" }]

/-- The record produced for an organic hit that is an empty JSON object. -/
def rec0 : ResultRecord :=
  { selected := false, title := Json.str "No title",
    summary := Json.str "No summary available", url := Json.str "No URL available" }

/-! ### Helper lemmas about `pyWords` -/

/-- Unfolding `pyWords` at a whitespace head. -/
theorem pyWords_cons_ws {c : Char} {cs : List Char} (hc : c.isWhitespace = true) :
    pyWords (c :: cs) = pyWords cs := by
  rw [pyWords.eq_def]
  simp [hc]

/-- Unfolding `pyWords` at a final non-whitespace character. -/
theorem pyWords_one {c : Char} (hc : c.isWhitespace = false) :
    pyWords [c] = [[c]] := by
  rw [pyWords.eq_def]
  simp [hc]

/-- Unfolding `pyWords` at a word's last character (whitespace follows). -/
theorem pyWords_cons_brk {c d : Char} {t : List Char}
    (hc : c.isWhitespace = false) (hd : d.isWhitespace = true) :
    pyWords (c :: d :: t) = [c] :: pyWords (d :: t) := by
  rw [pyWords.eq_def]
  simp [hc, hd]

/-- Unfolding `pyWords` inside a word (non-whitespace follows). -/
theorem pyWords_cons_mid {c d : Char} {t : List Char}
    (hc : c.isWhitespace = false) (hd : d.isWhitespace = false) :
    pyWords (c :: d :: t)
      = match pyWords (d :: t) with
        | [] => [[c]]
        | w :: ws => (c :: w) :: ws := by
  rw [pyWords.eq_def]
  simp [hc, hd]

/-- Every word produced by `pyWords` is non-empty and free of whitespace. -/
theorem pyWords_sound (l : List Char) :
    ∀ w ∈ pyWords l, w ≠ [] ∧ ∀ c ∈ w, c.isWhitespace = false := by
  induction l with
  | nil => simp [pyWords]
  | cons c cs ih =>
    by_cases hc : c.isWhitespace
    · rw [pyWords_cons_ws hc]
      exact ih
    · have hc' : c.isWhitespace = false := by simpa using hc
      cases cs with
      | nil =>
        rw [pyWords_one hc']
        simp [hc']
      | cons d t =>
        by_cases hd : d.isWhitespace
        · rw [pyWords_cons_brk hc' (by simpa using hd)]
          intro w hw
          rcases List.mem_cons.mp hw with hw | hw
          · subst hw
            exact ⟨by simp, by simpa using hc'⟩
          · exact ih w hw
        · have hd' : d.isWhitespace = false := by simpa using hd
          rw [pyWords_cons_mid hc' hd']
          cases hpw : pyWords (d :: t) with
          | nil =>
            intro w hw
            rcases List.mem_cons.mp hw with hw | hw
            · subst hw
              exact ⟨by simp, by simpa using hc'⟩
            · simp at hw
          | cons w' ws =>
            intro w hw
            rcases List.mem_cons.mp hw with hw | hw
            · subst hw
              have h1 := ih w' (by rw [hpw]; simp)
              refine ⟨by simp, ?_⟩
              intro a ha
              rcases List.mem_cons.mp ha with ha | ha
              · simpa [ha] using hc'
              · exact h1.2 a ha
            · exact ih w (by rw [hpw]; simp [hw])

/-- `pyWords` of a single non-empty whitespace-free word is that word. -/
theorem pyWords_single (w : List Char) (hne : w ≠ [])
    (hnw : ∀ c ∈ w, c.isWhitespace = false) : pyWords w = [w] := by
  induction w with
  | nil => contradiction
  | cons c w' ih =>
    have hc : c.isWhitespace = false := hnw c (by simp)
    cases w' with
    | nil => exact pyWords_one hc
    | cons c' w'' =>
      have hc' : c'.isWhitespace = false := hnw c' (by simp)
      have hrec : pyWords (c' :: w'') = [c' :: w''] :=
        ih (by simp) (fun a ha => hnw a (by simp [ha]))
      rw [pyWords_cons_mid hc hc', hrec]

/-- Peeling the first word off `pyWords`: a non-empty whitespace-free word
followed by a space splits as that word consed onto the split of the
rest. -/
theorem pyWords_word_cons (w t : List Char) (hne : w ≠ [])
    (hnw : ∀ c ∈ w, c.isWhitespace = false) :
    pyWords (w ++ ' ' :: t) = w :: pyWords t := by
  induction w with
  | nil => contradiction
  | cons c w' ih =>
    have hc : c.isWhitespace = false := hnw c (by simp)
    cases w' with
    | nil =>
      show pyWords (c :: ' ' :: t) = [c] :: pyWords t
      rw [pyWords_cons_brk hc (by decide), pyWords_cons_ws (c := ' ') (by decide)]
    | cons c' w'' =>
      have hc' : c'.isWhitespace = false := hnw c' (by simp)
      have hrec : pyWords ((c' :: w'') ++ ' ' :: t) = (c' :: w'') :: pyWords t :=
        ih (by simp) (fun a ha => hnw a (by simp [ha]))
      show pyWords (c :: ((c' :: w'') ++ ' ' :: t)) = _
      rw [List.cons_append, pyWords_cons_mid hc hc', ← List.cons_append, hrec]

/-- Splitting the space-join of non-empty whitespace-free words with the
ellipsis marker appended yields exactly as many tokens as there were
words (the marker merges into the last word). -/
theorem pyWords_join_len (ws : List (List Char)) (hne : ws ≠ [])
    (hws : ∀ w ∈ ws, w ≠ [] ∧ ∀ c ∈ w, c.isWhitespace = false) :
    (pyWords (joinWith ' ' ws ++ ellipsis)).length = ws.length := by
  induction ws with
  | nil => contradiction
  | cons w ws' ih =>
    cases ws' with
    | nil =>
      have hw := hws w (by simp)
      have h1 : pyWords (w ++ ellipsis) = [w ++ ellipsis] := by
        apply pyWords_single
        · simp [hw.1]
        · intro c hc
          rcases List.mem_append.mp hc with h | h
          · exact hw.2 c h
          · have : c = '.' := by simpa [ellipsis] using h
            subst this
            decide
      simp [joinWith, h1]
    | cons w' ws'' =>
      have hw := hws w (by simp)
      have hrec : (pyWords (joinWith ' ' (w' :: ws'') ++ ellipsis)).length
          = (w' :: ws'').length :=
        ih (by simp) (fun a ha => hws a (by simp [ha]))
      have hjoin : joinWith ' ' (w :: w' :: ws'') = w ++ ' ' :: joinWith ' ' (w' :: ws'') := rfl
      rw [hjoin, List.append_assoc, List.cons_append]
      rw [pyWords_word_cons w _ hw.1 hw.2]
      simp [hrec]

/-- `truncate_summary` unfolded (the `if` made explicit for rewriting). -/
theorem truncate_summary_eq (text : String) (max_words : Nat) :
    truncate_summary text max_words
      = if (pyWords text.toList).length ≤ max_words then text
        else String.mk (joinWith ' ' ((pyWords text.toList).take max_words) ++ ellipsis) := rfl

/-! ### C3 -/

/-- C3 (corrected): with sixty whitespace-separated words and
`max_words = 50`, whitespace-splitting the truncated result yields exactly
50 tokens, not the 51 the claim asserts — the ellipsis marker is appended
directly to the fiftieth word, not as a separate token. -/
theorem C3_truncate_overflow_cex :
    (pyWords (truncate_summary w60 50).toList).length = 50 ∧
    ¬ (pyWords (truncate_summary w60 50).toList).length = 51 := by decide

/-- C3 (amended): for every text of more than `max_words` words
(`max_words > 0`), `truncate_summary` returns the first `max_words` words
rejoined with single spaces with the ellipsis marker appended directly to
the last word, and whitespace-splitting the result yields exactly
`max_words` tokens. -/
theorem C3_truncate_overflow (text : String) (max_words : Nat)
    (h0 : 0 < max_words) (h : max_words < (pyWords text.toList).length) :
    truncate_summary text max_words
      = String.mk (joinWith ' ' ((pyWords text.toList).take max_words) ++ ellipsis) ∧
    (pyWords (truncate_summary text max_words).toList).length = max_words := by
  have h1 : ¬ (pyWords text.toList).length ≤ max_words := not_le.mpr h
  have heq : truncate_summary text max_words
      = String.mk (joinWith ' ' ((pyWords text.toList).take max_words) ++ ellipsis) := by
    rw [truncate_summary_eq, if_neg h1]
  refine ⟨heq, ?_⟩
  rw [heq]
  have htake : ((pyWords text.toList).take max_words).length = max_words := by
    rw [List.length_take]; omega
  have hne : (pyWords text.toList).take max_words ≠ [] := by
    intro hcon
    rw [hcon] at htake
    simp at htake
    omega
  have hws : ∀ w ∈ (pyWords text.toList).take max_words,
      w ≠ [] ∧ ∀ c ∈ w, c.isWhitespace = false :=
    fun w hw => pyWords_sound _ w (List.take_subset _ _ hw)
  show (pyWords (joinWith ' ' ((pyWords text.toList).take max_words) ++ ellipsis)).length
      = max_words
  rw [pyWords_join_len _ hne hws, htake]

/-- C3 witness: the amended statement at the sixty-word example with
`max_words = 50`. -/
theorem C3_truncate_overflow_witness :
    (pyWords (truncate_summary w60 50).toList).length = 50 :=
  (C3_truncate_overflow w60 50 (by decide) (by decide)).2

/-! ### C8 -/

/-- C8 (confirmed): when the whitespace-split word count of the input is at
most `max_words`, `truncate_summary` returns the input unchanged (no
ellipsis, original whitespace preserved); in particular the empty string is
returned unchanged for every bound.  (Totality on every string input is
inherent: `truncate_summary` is a total Lean function.) -/
theorem C8_truncate_short :
    (∀ (text : String) (max_words : Nat),
        (pyWords text.toList).length ≤ max_words →
        truncate_summary text max_words = text) ∧
    (∀ max_words : Nat, truncate_summary "" max_words = "") := by
  constructor
  · intro text max_words h
    rw [truncate_summary_eq, if_pos h]
  · intro max_words
    rw [truncate_summary_eq,
      if_pos (show (pyWords ("" : String).toList).length ≤ max_words from Nat.zero_le _)]

/-- C8 witness: `truncate_summary "a b c" 5 = "a b c"`. -/
theorem C8_truncate_short_witness : truncate_summary "a b c" 5 = "a b c" :=
  C8_truncate_short.1 "a b c" 5 (by decide)

/-! ### C1 -/

/-- C1 (counterexample): `build_search_query` emits the region phrases in
the order the selections are supplied, not in catalog order — supplying
France before Poland yields `"in France OR in Poland"`, not the
`"in Poland OR in France"` the claim asserts for both supply orders. -/
theorem C1_region_clause_order_cex :
    build_search_query ["France", "Poland"] [] "" = "in France OR in Poland" ∧
    build_search_query ["France", "Poland"] [] "" ≠ "in Poland OR in France" := by decide

/-- C1 (amended): `build_search_query` itself preserves the supplied
selection order; catalog order arises because `main` supplies the selected
regions by filtering the catalog in its iteration order.  Hence any two
checkbox states choosing the same region set produce identical queries, and
choosing France and Poland (in either announcement order) yields
`"in Poland OR in France"`. -/
theorem C1_region_clause_order :
    (∀ f g : String → Bool, (∀ r, f r = g r) →
        ∀ (ts : List String) (add : String),
          build_search_query (ui_selected_regions f) ts add
            = build_search_query (ui_selected_regions g) ts add) ∧
    build_search_query (ui_selected_regions pickFP) [] "" = "in Poland OR in France" := by
  constructor
  · intro f g hfg ts add
    have hsel : ui_selected_regions f = ui_selected_regions g :=
      List.filter_congr (fun x _ => hfg x)
    rw [hsel]
  · decide

/-- C1 witness: the France-first and Poland-first checkbox states give the
same built query. -/
theorem C1_region_clause_order_witness :
    build_search_query (ui_selected_regions pickFP) [] ""
      = build_search_query (ui_selected_regions pickPF) [] "" :=
  C1_region_clause_order.1 pickFP pickPF
    (by intro r; unfold pickFP pickPF; exact Bool.or_comm _ _) [] ""

/-! ### C2 -/

/-- C2 (counterexample): for the query `"luxury travel market trends
analysis in Poland"` the clean-query segment is `"luxury_travel_an"`, not
`"luxury_travel"` — the 30-character cut keeps the `an` of `analysis`, and
the underscore collapse leaves single (not double) underscores — so the
produced filename is not the `poland_luxury_travel__…` shape the claim
asserts. -/
theorem C2_export_filename_cex :
    String.mk (clean_query_of luxQuery) = "luxury_travel_an" ∧
    String.mk (clean_query_of luxQuery) ≠ "luxury_travel" ∧
    export_filename ["Poland"] luxQuery "20250101_120000"
      ≠ "poland_luxury_travel__20250101_120000.csv" := by decide

/-- C2 (amended): exporting with `selectedRegions=["Poland"]` and the query
`"luxury travel market trends analysis in Poland"` produces the filename
`poland_luxury_travel_an_{timestamp}.csv`: the clean-query segment after
the 30-character cut, space replacement, substring removals and underscore
collapse is exactly `"luxury_travel_an"`. -/
theorem C2_export_filename (ts : String) :
    export_filename ["Poland"] luxQuery ts = "poland_luxury_travel_an_" ++ ts ++ ".csv" := rfl

/-! ### C6 -/

/-- C6 (counterexample): a whitespace-only `additional_terms` is appended
(the source checks string truthiness, not a trimmed value), so the built
query differs from the one built with empty additional terms. -/
theorem C6_additional_terms_cex :
    build_search_query [] [] " " ≠ build_search_query [] [] "" := by decide

/-- C6 (amended): `build_search_query` appends `additional_terms` verbatim
exactly when the string is non-empty, with no trimming — so a
whitespace-only value is appended as an extra query part. -/
theorem C6_additional_terms (rs ts : List String) (add : String) :
    query_parts_of rs ts add
      = if add = "" then query_parts_of rs ts ""
        else query_parts_of rs ts "" ++ [add] := by
  by_cases h : add = "" <;> simp [query_parts_of, h]

/-! ### C5 -/

/-- C5 (counterexample): `save_selected_results` invoked directly on a
result set with zero selected rows does not fail — it still derives a
filename and writes the metadata header plus a header-only CSV body. -/
theorem C5_export_empty_selection_cex :
    df0.any (fun r => r.selected) = false ∧
    save_selected_results df0 "q" ["Poland"] "20250101_120000"
      = ("poland_q_20250101_120000.csv",
         "# Search Query: q\n# Regions: Poland\n# Timestamp: 20250101_120000\n#"
           ++ String.mk (List.replicate 50 '=') ++ "\ntitle,summary,url\n") := by
  refine ⟨by decide, ?_⟩
  rfl

/-- C5 (amended): the zero-selection guard lives in the caller, not the
exporter: the Save button handler checks `edited_df['selected'].any()`
first, and with no selected row it reports a warning and never invokes
`save_selected_results`, so no file is written. -/
theorem C5_export_empty_selection (edited_df : List ResultRecord)
    (q : String) (rs : List String) (ts : String)
    (h : edited_df.any (fun r => r.selected) = false) :
    main_save edited_df q rs ts = none := by
  simp [main_save, h]

/-- C5 witness: the amended statement at the concrete unselected result
set. -/
theorem C5_export_empty_selection_witness :
    main_save df0 "q" ["Poland"] "20250101_120000" = none :=
  C5_export_empty_selection df0 "q" ["Poland"] "20250101_120000" (by decide)

/-! ### Helper lemmas about hit processing -/

/-- Monadic bind on `Except` at a success value, as a rewrite rule. -/
theorem ok_bind {α β : Type} (a : α) (f : α → Except PyExc β) :
    (Except.ok a >>= f) = f a := rfl

/-- Monadic bind on `Except` at an error, as a rewrite rule. -/
theorem error_bind {α β : Type} (e : PyExc) (f : α → Except PyExc β) :
    ((Except.error e : Except PyExc α) >>= f) = Except.error e := rfl

/-- Every record `processHit` succeeds with has `selected = false`. -/
theorem processHit_selected (hit : Json) (r : ResultRecord)
    (h : processHit hit = Except.ok r) : r.selected = false := by
  cases hit <;> simp [processHit, snippet_of, pyGet, ok_bind, error_bind] at h
  case obj kvs =>
    cases hs : asStr ((lookupKvs kvs "snippet").getD (Json.str "No summary available")) with
    | error e => simp [hs, error_bind] at h
    | ok s =>
      simp [hs, ok_bind] at h
      subst h
      rfl

/-- Every record in a successful `processLoop` run has `selected = false`. -/
theorem processLoop_selected (hs : List Json) (recs : List ResultRecord)
    (h : processLoop hs = Except.ok recs) : ∀ r ∈ recs, r.selected = false := by
  induction hs generalizing recs with
  | nil =>
    simp [processLoop] at h
    subst h
    simp
  | cons hd tl ih =>
    cases h1 : processHit hd with
    | error e => simp [processLoop, h1, error_bind] at h
    | ok r0 =>
      cases h2 : processLoop tl with
      | error e => simp [processLoop, h1, h2, ok_bind, error_bind] at h
      | ok rs0 =>
        simp [processLoop, h1, h2, ok_bind] at h
        subst h
        intro r hr
        rcases List.mem_cons.mp hr with hr | hr
        · subst hr
          exact processHit_selected hd _ h1
        · exact ih rs0 h2 r hr

/-! ### C7 -/

/-- C7 (confirmed): for an organic hit that is a JSON object, a missing
`title` maps to `"No title"`, a missing `snippet` to a summary of
`"No summary available"`, and a missing `link` to `"No URL available"`;
and every record a search returns has `selected = false`. -/
theorem C7_placeholders :
    (∀ (kvs : List (String × Json)) (r : ResultRecord),
        processHit (Json.obj kvs) = Except.ok r →
        r.selected = false ∧
        (lookupKvs kvs "title" = none → r.title = Json.str "No title") ∧
        (lookupKvs kvs "snippet" = none → r.summary = Json.str "No summary available") ∧
        (lookupKvs kvs "link" = none → r.url = Json.str "No URL available")) ∧
    (∀ (t : Transport) (n : Nat) (b : Bool) (recs : List ResultRecord),
        search_serpapi_result t n = SearchOutput.returns b recs →
        ∀ r ∈ recs, r.selected = false) := by
  constructor
  · intro kvs r h
    cases hs : asStr ((lookupKvs kvs "snippet").getD (Json.str "No summary available")) with
    | error e => simp [processHit, snippet_of, pyGet, hs, ok_bind, error_bind] at h
    | ok s =>
      simp [processHit, snippet_of, pyGet, hs, ok_bind] at h
      subst h
      refine ⟨rfl, ?_, ?_, ?_⟩
      · intro ht
        simp [ht]
      · intro hsn
        rw [hsn] at hs
        simp [asStr] at hs
        subst hs
        rfl
      · intro hu
        simp [hu]
  · intro t n b recs h
    cases t with
    | failure msg =>
      simp [search_serpapi_result] at h
      rcases h with ⟨hb, hr⟩
      subst hr
      simp
    | success data =>
      cases hg : pyGet data "organic_results" (Json.arr []) with
      | error e =>
        cases e <;> simp [search_serpapi_result, hg, ok_bind, error_bind] at h
        rcases h with ⟨hb, hr⟩
        subst hr
        simp
      | ok results =>
        cases hsl : sliceResults results n with
        | error e =>
          cases e <;> simp [search_serpapi_result, hg, hsl, ok_bind, error_bind] at h
          rcases h with ⟨hb, hr⟩
          subst hr
          simp
        | ok hits =>
          cases hp : processLoop hits with
          | error e =>
            cases e <;> simp [search_serpapi_result, hg, hsl, hp, ok_bind, error_bind] at h
            rcases h with ⟨hb, hr⟩
            subst hr
            simp
          | ok recs0 =>
            simp [search_serpapi_result, hg, hsl, hp, ok_bind] at h
            rcases h with ⟨hb, hr⟩
            subst hr
            exact processLoop_selected hits recs0 hp

/-- C7 witness: the empty organic hit produces the all-placeholder record
with `selected = false`. -/
theorem C7_placeholders_witness :
    rec0.selected = false ∧ rec0.summary = Json.str "No summary available" :=
  ⟨(C7_placeholders.1 [] rec0 rfl).1, (C7_placeholders.1 [] rec0 rfl).2.2.1 rfl⟩

/-! ### C4 -/

/-- C4 (counterexample): a successful response whose `organic_results`
holds a non-object element is a malformed shape on which `search_serpapi`
raises (`AttributeError` from `result.get` on a non-dict) instead of
returning an empty result set — only `RequestException` and `KeyError` are
caught. -/
theorem C4_search_errors_cex :
    search_serpapi_result
        (Transport.success (Json.obj [("organic_results", Json.arr [Json.num 0])])) 10
      = SearchOutput.raises PyExc.attributeError := rfl

/-- C4 (amended): on a transport failure (network error or non-2xx status,
i.e. a `RequestException`) `search_serpapi` reports a user-visible error
and returns an empty result set without raising; malformed response shapes
are only partially protected (a `KeyError` would be caught, but non-object
organic hits raise to the caller, see the counterexample). -/
theorem C4_search_errors (msg : String) (n : Nat) :
    search_serpapi_result (Transport.failure msg) n = SearchOutput.returns true [] := rfl

/-! ### C9 -/

/-- C9 (confirmed): with several regions selected, only the first selected
region's catalog code reaches the provider call: `region_code_of` consults
just the head of the selection, and every request parameter other than the
query text `q` is unchanged when the non-head selections change. -/
theorem C9_geo_from_first_region :
    (∀ (r : String) (rest : List String),
        region_code_of (r :: rest) = lookupStr REGIONS r) ∧
    (∀ (k add : String) (n : Nat) (r : String) (ts : List String)
        (rest rest' : List String),
        (session_request (build_search_query (r :: rest) ts add) k (r :: rest) n).filter
            (fun p => p.1 != "q")
          = (session_request (build_search_query (r :: rest') ts add) k (r :: rest') n).filter
            (fun p => p.1 != "q")) := by
  constructor
  · intro r rest
    rfl
  · intro k add n r ts rest rest'
    simp only [session_request, region_code_of]
    cases lookupStr REGIONS r <;> rfl

/-! ### C10 -/

/-- C10 (confirmed): the stored result records never depend on the
"Summary length (characters)" slider — neither the session result set nor
the exported file changes with it — and every produced record's summary is
the raw snippet passed through `truncate_summary` at the fixed default of
50 words. -/
theorem C10_summary_fixed_50 :
    (∀ (t : Transport) (q k : String) (sel : List String) (n s₁ s₂ : Nat),
        session_search t q k sel n s₁ = session_search t q k sel n s₂) ∧
    (∀ (hit : Json) (r : ResultRecord) (s : String),
        processHit hit = Except.ok r → snippet_of hit = Except.ok s →
        r.summary = Json.str (truncate_summary s 50)) ∧
    (∀ (t : Transport) (q k : String) (sel : List String) (n s₁ s₂ : Nat) (ts : String),
        session_then_export t q k sel n s₁ ts = session_then_export t q k sel n s₂ ts) := by
  refine ⟨fun _ _ _ _ _ _ _ => rfl, ?_, fun _ _ _ _ _ _ _ _ => rfl⟩
  intro hit r s h1 h2
  cases hit <;> simp [snippet_of, pyGet, ok_bind, error_bind] at h2
  case obj kvs =>
    simp [processHit, snippet_of, pyGet, h2, ok_bind, error_bind] at h1
    subst h1
    rfl

/-- C10 witness: the record of the empty organic hit carries the
placeholder snippet truncated at 50 words. -/
theorem C10_summary_fixed_50_witness :
    rec0.summary = Json.str (truncate_summary "No summary available" 50) :=
  C10_summary_fixed_50.2.1 (Json.obj []) rec0 "No summary available" rfl rfl

end SerpSearch
